import Mathlib

/-!
Shallow embedding of the ticket coordination core of the claude-swarm
repository: the SQLite-backed ticket CLI (`ticket.py`), the supervisor
HTTP API handlers (`server.py`), and the orphan-recovery hook
(`swarm.py`'s `release_agent_tickets`).

The database is modelled as an explicit state value; each SQL statement
becomes a pure list operation; `sys.exit(1)` error paths become
`Except` errors (an error result models "exit without commit": no state
change is published).  Timestamps (`datetime('now')`) are modelled by an
explicit `now : Nat` parameter.
-/

namespace Swarm

/-- A row of the `tickets` table.  Statuses are plain strings, as in the
code (the CLI update command accepts any string except a direct "done"). -/
structure Ticket where
  id : Nat
  title : String
  description : Option String := none
  status : String := "open"
  assigned_to : Option String := none
  parent_id : Option Nat := none
  created_by : String := "human"
  type : Option String := none
  created_at : Nat := 0
  updated_at : Nat := 0
deriving Repr, DecidableEq

/-- A row of the `comments` table. -/
structure Comment where
  ticket_id : Nat
  author : String
  body : String
  created_at : Nat := 0
deriving Repr, DecidableEq

/-- A row of the `activity_log` table; list position models the
autoincrement id, so list order is insertion order. -/
structure Activity where
  ticket_id : Option Nat
  agent_id : Option String
  action : String
  detail : Option String
deriving Repr, DecidableEq

/-- The whole database file: tickets, blocker edges `(ticket_id, blocked_by)`,
comments, activity log, the `schema_version` record (`none` models a missing
or empty `schema_version` table) and a flag recording whether the embedded
`CREATE TABLE IF NOT EXISTS` schema of the monitor has been executed. -/
structure DB where
  tickets : List Ticket
  blockers : List (Nat × Nat)
  comments : List Comment
  activity : List Activity
  version : Option Nat
  initialized : Bool := false
deriving Repr, DecidableEq

/-- Kinds of schema-version mismatch distinguished by `check_version`. -/
inductive VersionError where
  | notInitialized
  | outdated
  | newer
deriving Repr, DecidableEq

/-- CLI error exits (`sys.exit(1)` / `sys.exit(2)` paths). -/
inductive CmdError where
  | version (e : VersionError)
  | notFound
  | validation
  | nothingToUpdate
  | noWork
  | alreadyBlocked
  | noSuchBlocker
deriving Repr, DecidableEq

/-- `check_version`: compares the stored schema version against the version
expected by the codebase; three kind-distinguished failures. -/
def check_version (current : Option Nat) (expected : Nat) :
    Except VersionError Unit :=
  match current with
  | none => .error .notInitialized
  | some v =>
    if v < expected then .error .outdated
    else if v > expected then .error .newer
    else .ok ()

/-- Models `connect(db_path)`: opening a CLI connection runs `check_version`
and aborts the whole command on mismatch, otherwise continues with `k`. -/
def gate {A : Type} (expected : Nat) (db : DB) (k : Except CmdError A) :
    Except CmdError A :=
  match check_version db.version expected with
  | .error e => .error (.version e)
  | .ok _ => k

/-- `log_activity`: append one row to `activity_log`. -/
def log_activity (db : DB) (ticket_id : Option Nat) (agent_id : Option String)
    (action : String) (detail : Option String) : DB :=
  { db with activity := db.activity ++ [⟨ticket_id, agent_id, action, detail⟩] }

/-- `SELECT * FROM tickets WHERE id = ?` followed by `fetchone()`. -/
def findTicket (db : DB) (i : Nat) : Option Ticket :=
  db.tickets.find? (fun t => t.id == i)

/-- `UPDATE tickets SET ... WHERE id = ?`: apply `f` to every row whose
id matches. -/
def updateTicket (f : Ticket → Ticket) (i : Nat) (ts : List Ticket) :
    List Ticket :=
  ts.map (fun t => if t.id = i then f t else t)

/-- The autoincrement id handed to the next inserted ticket. -/
def next_id (db : DB) : Nat :=
  db.tickets.foldl (fun m t => max m t.id) 0 + 1

/-- A ticket id is blocked when some blocker edge leads from it to an
existing ticket whose status is not `done` (the JOIN in `cmd_claim_next`). -/
def isBlocked (db : DB) (i : Nat) : Bool :=
  db.blockers.any (fun e =>
    e.1 == i && db.tickets.any (fun t => t.id == e.2 && t.status != "done"))

/-- The availability condition of `cmd_claim_next`: open, unassigned, and
no open blocker. -/
def claimable (db : DB) (t : Ticket) : Bool :=
  t.status == "open" && t.assigned_to.isNone && !(isBlocked db t.id)

/-- `ORDER BY id ASC LIMIT 1`: least-id element of a list of rows. -/
def minById : List Ticket → Option Ticket
  | [] => none
  | t :: ts =>
    match minById ts with
    | none => some t
    | some u => if t.id ≤ u.id then some t else some u

/-- Arguments of `ticket create`. -/
structure CreateArgs where
  title : String
  description : Option String := none
  parent : Option Nat := none
  assign : Option String := none
  blocked_by : Option Nat := none
  created_by : String := "human"
  type : Option String := none
  block_dependents_of : Option Nat := none
deriving Repr, DecidableEq

/-- Arguments of `ticket update` (each `none` means flag absent). -/
structure UpdateArgs where
  title : Option String := none
  description : Option String := none
  assign : Option String := none
  status : Option String := none
  type : Option String := none
deriving Repr, DecidableEq

/-- `cmd_create`: empty-title check happens before connecting; then the
ticket row is inserted, an optional `--blocked-by` edge and the
`--block-dependents-of` edges are added with their `blocker_added` events,
and a `created` event is logged.  Returns the new id. -/
def cmd_create (expected now : Nat) (a : CreateArgs) (db : DB) :
    Except CmdError (DB × Nat) :=
  if a.title.trim == "" then .error .validation else
  gate expected db (
    let ticket_type : String :=
      match a.type with
      | some s => s
      | none =>
        if a.assign == some "human" then
          (if a.blocked_by.isSome then "question" else "proposal")
        else "task"
    let new_id := next_id db
    let db1 : DB := { db with tickets := db.tickets ++
      [{ id := new_id, title := a.title, description := a.description,
         status := "open", assigned_to := a.assign, parent_id := a.parent,
         created_by := a.created_by, type := some ticket_type,
         created_at := now, updated_at := now }] }
    let db2 : DB :=
      match a.blocked_by with
      | some b =>
        log_activity { db1 with blockers := db1.blockers ++ [(new_id, b)] }
          (some new_id) (some a.created_by) "blocker_added"
          (some ("Blocked by ticket #" ++ toString b))
      | none => db1
    match a.block_dependents_of with
    | some src =>
      if (findTicket db2 src).isNone then .error .notFound
      else
        let deps := (db2.blockers.filter (fun e => e.2 == src)).map (fun e => e.1)
        let db3 := deps.foldl (fun d dep =>
          if d.blockers.contains (dep, new_id) then d
          else
            log_activity { d with blockers := d.blockers ++ [(dep, new_id)] }
              (some dep) (some a.created_by) "blocker_added"
              (some ("Blocked by #" ++ toString new_id ++
                     " (via --block-dependents-of #" ++ toString src ++ ")"))) db2
        .ok (log_activity db3 (some new_id) (some a.created_by) "created"
              (some a.title), new_id)
    | none =>
      .ok (log_activity db2 (some new_id) (some a.created_by) "created"
            (some a.title), new_id))

/-- `cmd_update`: after the not-found check, a direct `--status done` is
rejected before anything else; with no flags at all the command exits with
"Nothing to update"; otherwise the given fields plus `updated_at` are set
and an `updated` event is logged. -/
def cmd_update (expected now : Nat) (i : Nat) (a : UpdateArgs) (db : DB) :
    Except CmdError DB :=
  gate expected db (
    match findTicket db i with
    | none => .error .notFound
    | some _ =>
      if a.status == some "done" then .error .validation
      else
        let changes : List String :=
          (match a.title with | some s => ["title -> " ++ s] | none => []) ++
          (match a.description with | some _ => ["description updated"] | none => []) ++
          (match a.assign with | some s => ["assigned_to -> " ++ s] | none => []) ++
          (match a.status with | some s => ["status -> " ++ s] | none => []) ++
          (match a.type with | some s => ["type -> " ++ s] | none => [])
        if changes.isEmpty then .error .nothingToUpdate
        else
          .ok (log_activity
            { db with tickets := updateTicket (fun t =>
                { t with
                  title := a.title.getD t.title,
                  description := match a.description with
                    | some d => some d | none => t.description,
                  assigned_to := match a.assign with
                    | some s => some s | none => t.assigned_to,
                  status := a.status.getD t.status,
                  type := match a.type with
                    | some s => some s | none => t.type,
                  updated_at := now }) i db.tickets }
            (some i) none "updated" (some (String.intercalate "; " changes))))

/-- `cmd_list`: read-only; returns the rows selected by the status filter
(default: everything not `done`) and the assignee filter. -/
def cmd_list (expected : Nat) (status assigned_to : Option String) (db : DB) :
    Except CmdError (DB × List Ticket) :=
  gate expected db (
    let statusOK : Ticket → Bool :=
      match status with
      | some s => fun t => ((s.splitOn ",").map (fun x => x.trim)).contains t.status
      | none => fun t => t.status != "done"
    let assignOK : Ticket → Bool :=
      match assigned_to with
      | some a => fun t => t.assigned_to == some a
      | none => fun _ => true
    .ok (db, db.tickets.filter (fun t => statusOK t && assignOK t)))

/-- `cmd_show`: read-only; not-found check then the row. -/
def cmd_show (expected : Nat) (i : Nat) (db : DB) :
    Except CmdError (DB × Ticket) :=
  gate expected db (
    match findTicket db i with
    | none => .error .notFound
    | some row => .ok (db, row))

/-- `cmd_count`: read-only; counts rows under the same status filter as
`cmd_list`. -/
def cmd_count (expected : Nat) (status : Option String) (db : DB) :
    Except CmdError (DB × Nat) :=
  gate expected db (
    let statusOK : Ticket → Bool :=
      match status with
      | some s => fun t => ((s.splitOn ",").map (fun x => x.trim)).contains t.status
      | none => fun t => t.status != "done"
    .ok (db, (db.tickets.filter statusOK).length))

/-- `cmd_claim_next`: in one transaction, select the least-id available
ticket (open, unassigned, no open blocker); if none, roll back and exit
with "no work"; otherwise assign it, set it `in_progress`, log a `claimed`
event, commit, and return the re-fetched row. -/
def cmd_claim_next (expected now : Nat) (agent : String) (db : DB) :
    Except CmdError (DB × Ticket) :=
  gate expected db (
    match minById (db.tickets.filter (claimable db)) with
    | none => .error .noWork
    | some row =>
      let db1 : DB := { db with tickets := updateTicket (fun t =>
        { t with assigned_to := some agent, status := "in_progress",
                 updated_at := now }) row.id db.tickets }
      let db2 := log_activity db1 (some row.id) (some agent) "claimed"
        (some ("Claimed by " ++ agent))
      match findTicket db2 row.id with
      | some updated => .ok (db2, updated)
      | none => .error .notFound)

/-- `cmd_comment`: not-found check, insert the comment, log a `commented`
event carrying the first 200 characters of the body. -/
def cmd_comment (expected now : Nat) (i : Nat) (author body : String)
    (db : DB) : Except CmdError DB :=
  gate expected db (
    match findTicket db i with
    | none => .error .notFound
    | some _ =>
      .ok (log_activity
        { db with comments := db.comments ++ [⟨i, author, body, now⟩] }
        (some i) (some author) "commented" (some (body.take 200))))

/-- `cmd_comments`: read-only; not-found check then the ticket's comments. -/
def cmd_comments (expected : Nat) (i : Nat) (db : DB) :
    Except CmdError (DB × List Comment) :=
  gate expected db (
    match findTicket db i with
    | none => .error .notFound
    | some _ => .ok (db, db.comments.filter (fun c => c.ticket_id == i)))

/-- `cmd_complete`: sets the ticket's status to `ready` (unconditionally on
its current status) and logs a `completed` event. -/
def cmd_complete (expected now : Nat) (i : Nat) (db : DB) :
    Except CmdError DB :=
  gate expected db (
    match findTicket db i with
    | none => .error .notFound
    | some row =>
      .ok (log_activity
        { db with tickets := updateTicket (fun t =>
            { t with status := "ready", updated_at := now }) i db.tickets }
        (some i) row.assigned_to "completed"
        (some ("Ticket #" ++ toString i ++ " marked work complete"))))

/-- `cmd_mark_done`: the post-push finalization path; sets status `done`. -/
def cmd_mark_done (expected now : Nat) (i : Nat) (db : DB) :
    Except CmdError DB :=
  gate expected db (
    match findTicket db i with
    | none => .error .notFound
    | some row =>
      .ok (log_activity
        { db with tickets := updateTicket (fun t =>
            { t with status := "done", updated_at := now }) i db.tickets }
        (some i) row.assigned_to "done"
        (some ("Ticket #" ++ toString i ++ " marked done"))))

/-- `cmd_unclaim`: clears `assigned_to`, sets status `open`
(unconditionally on its current status) and logs an `unclaimed` event. -/
def cmd_unclaim (expected now : Nat) (i : Nat) (db : DB) :
    Except CmdError DB :=
  gate expected db (
    match findTicket db i with
    | none => .error .notFound
    | some row =>
      .ok (log_activity
        { db with tickets := updateTicket (fun t =>
            { t with assigned_to := none, status := "open",
                     updated_at := now }) i db.tickets }
        (some i) row.assigned_to "unclaimed"
        (some ("Released by " ++
          (match row.assigned_to with | some a => a | none => "None")))))

/-- `cmd_block`: both tickets must exist; a duplicate edge is rejected;
the edge is inserted and `blocker_added` logged; then, if the blocked
ticket is currently assigned, it is auto-released (assignee cleared, status
`open`) and a synthetic `unclaimed` event is logged after `blocker_added`. -/
def cmd_block (expected now : Nat) (i bid : Nat) (db : DB) :
    Except CmdError DB :=
  gate expected db (
    if (findTicket db i).isNone then .error .notFound
    else if (findTicket db bid).isNone then .error .notFound
    else if db.blockers.contains (i, bid) then .error .alreadyBlocked
    else
      let db2 := log_activity { db with blockers := db.blockers ++ [(i, bid)] }
        (some i) none "blocker_added" (some ("Blocked by #" ++ toString bid))
      match findTicket db2 i with
      | some row =>
        match row.assigned_to with
        | some prev =>
          .ok (log_activity
            { db2 with tickets := updateTicket (fun t =>
                { t with assigned_to := none, status := "open",
                         updated_at := now }) i db2.tickets }
            (some i) (some prev) "unclaimed"
            (some ("Auto-released (blocked by #" ++ toString bid ++ ")")))
        | none => .ok db2
      | none => .ok db2)

/-- `cmd_unblock`: `DELETE FROM blockers WHERE ticket_id = ? AND
blocked_by = ?`; a zero rowcount exits with "No such blocker relationship";
otherwise `blocker_removed` is logged.  The tickets table is untouched. -/
def cmd_unblock (expected : Nat) (i bid : Nat) (db : DB) :
    Except CmdError DB :=
  gate expected db (
    let remaining := db.blockers.filter (fun e => !(e.1 == i && e.2 == bid))
    if remaining.length == db.blockers.length then .error .noSuchBlocker
    else
      .ok (log_activity { db with blockers := remaining }
        (some i) none "blocker_removed"
        (some ("Unblocked from #" ++ toString bid))))

/-- `cmd_log`: read-only; newest `limit` activity rows. -/
def cmd_log (expected : Nat) (limit : Nat) (db : DB) :
    Except CmdError (DB × List Activity) :=
  gate expected db (.ok (db, db.activity.reverse.take limit))

/-- Modelled from the spec: the migrations directory is not part of the
sources under inspection (only `run_migrations` is), so the effect of the
SQL scripts is abstracted: `migrate` applies every pending migration and
records the highest migration version, leaving an already-current or newer
database version unchanged.  It performs no version check. -/
def cmd_migrate (expected : Nat) (db : DB) : DB :=
  { db with version := some (max (db.version.getD 0) expected) }

/-- The CLI subcommands with their arguments. -/
inductive Cmd where
  | create (a : CreateArgs)
  | update (i : Nat) (a : UpdateArgs)
  | list (status assigned_to : Option String)
  | show' (i : Nat)
  | count (status : Option String)
  | claimNext (agent : String)
  | comment (i : Nat) (author body : String)
  | comments (i : Nat)
  | complete (i : Nat)
  | markDone (i : Nat)
  | unclaim (i : Nat)
  | block (i bid : Nat)
  | unblock (i bid : Nat)
  | log (limit : Nat)
  | migrate
deriving Repr, DecidableEq

/-- The `DISPATCH` table of the CLI: routes a parsed command to its
handler (outputs other than the database state are dropped here). -/
def dispatch (expected now : Nat) (c : Cmd) (db : DB) : Except CmdError DB :=
  match c with
  | .create a => (cmd_create expected now a db).map (fun r => r.1)
  | .update i a => cmd_update expected now i a db
  | .list s a => (cmd_list expected s a db).map (fun r => r.1)
  | .show' i => (cmd_show expected i db).map (fun r => r.1)
  | .count s => (cmd_count expected s db).map (fun r => r.1)
  | .claimNext agent => (cmd_claim_next expected now agent db).map (fun r => r.1)
  | .comment i author body => cmd_comment expected now i author body db
  | .comments i => (cmd_comments expected i db).map (fun r => r.1)
  | .complete i => cmd_complete expected now i db
  | .markDone i => cmd_mark_done expected now i db
  | .unclaim i => cmd_unclaim expected now i db
  | .block i bid => cmd_block expected now i bid db
  | .unblock i bid => cmd_unblock expected i bid db
  | .log limit => (cmd_log expected limit db).map (fun r => r.1)
  | .migrate => .ok (cmd_migrate expected db)

/-- Commands whose argument prechecks (run before the database is even
opened) pass: only `create` validates an argument — a non-blank title —
before connecting. -/
def precheckOK : Cmd → Bool
  | .create a => !(a.title.trim == "")
  | _ => true

/-! ### Supervisor HTTP API (`server.py`) -/

/-- `get_db` of the monitor: opens a connection and unconditionally runs
`conn.executescript(SCHEMA)`, whose statements are all
`CREATE TABLE IF NOT EXISTS` / `CREATE INDEX IF NOT EXISTS` — on existing
tables this only marks the schema as present.  No schema-version check of
any kind is performed. -/
def get_db (db : DB) : DB :=
  { db with initialized := true }

/-- JSON body of `POST /api/tickets` (absent and null keys conflated). -/
structure ApiCreateBody where
  title : Option String := none
  description : Option String := none
  parent_id : Option Nat := none
  assigned_to : Option String := none
  created_by : Option String := none
deriving Repr, DecidableEq

/-- JSON body of `POST /api/tickets/:id/update`. -/
structure ApiUpdateBody where
  title : Option String := none
  description : Option String := none
  status : Option String := none
  assigned_to : Option String := none
deriving Repr, DecidableEq

/-- `api_create_ticket`: a missing or empty title is a 400 (checked before
opening the database); otherwise the row is inserted and `created` logged.
Returns the HTTP status code with the resulting state. -/
def api_create_ticket (now : Nat) (body : ApiCreateBody) (db : DB) :
    Nat × DB :=
  match body.title with
  | none => (400, db)
  | some title =>
    if title == "" then (400, db)
    else
      let conn := get_db db
      let created_by := body.created_by.getD "human"
      let new_id := next_id conn
      (201, log_activity
        { conn with tickets := conn.tickets ++
          [{ id := new_id, title := title, description := body.description,
             status := "open", assigned_to := body.assigned_to,
             parent_id := body.parent_id, created_by := created_by,
             type := none, created_at := now, updated_at := now }] }
        (some new_id) (some created_by) "created" (some title))

/-- `api_complete_ticket` (`POST /api/tickets/:id/complete`): 404 when the
ticket does not exist; otherwise sets the status to `done` directly and
logs a `completed` event with detail "marked done". -/
def api_complete_ticket (now : Nat) (ticket_id : Nat) (db : DB) :
    Nat × DB :=
  let conn := get_db db
  match findTicket conn ticket_id with
  | none => (404, conn)
  | some row =>
    (200, log_activity
      { conn with tickets := updateTicket (fun t =>
          { t with status := "done", updated_at := now }) ticket_id conn.tickets }
      (some ticket_id) row.assigned_to "completed"
      (some ("Ticket #" ++ toString ticket_id ++ " marked done")))

/-- The `changes` list built by `api_update_ticket` from the present,
non-null body fields, in the source's field order. -/
def api_update_changes (b : ApiUpdateBody) : List String :=
  (match b.title with | some s => ["title -> " ++ s] | none => []) ++
  (match b.description with | some s => ["description -> " ++ s] | none => []) ++
  (match b.status with | some s => ["status -> " ++ s] | none => []) ++
  (match b.assigned_to with | some s => ["assigned_to -> " ++ s] | none => [])

/-- `api_update_ticket` (`POST /api/tickets/:id/update`): 404 when missing,
400 when no updatable field is present; otherwise sets the given fields
(any status string is accepted, `done` included) and logs `updated`. -/
def api_update_ticket (now : Nat) (ticket_id : Nat) (b : ApiUpdateBody)
    (db : DB) : Nat × DB :=
  let conn := get_db db
  match findTicket conn ticket_id with
  | none => (404, conn)
  | some _ =>
    let changes : List String := api_update_changes b
    if changes.isEmpty then (400, conn)
    else
      (200, log_activity
        { conn with tickets := updateTicket (fun t =>
            { t with
              title := b.title.getD t.title,
              description := match b.description with
                | some d => some d | none => t.description,
              status := b.status.getD t.status,
              assigned_to := match b.assigned_to with
                | some s => some s | none => t.assigned_to,
              updated_at := now }) ticket_id conn.tickets }
        (some ticket_id) (some "human") "updated"
        (some (String.intercalate "; " changes)))

/-! ### Orphan-recovery hook (`swarm.py`, `release_agent_tickets`) -/

/-- The selection predicate of the recovery hook: assigned, not to
`human`, and not `done`. -/
def orphanPred (t : Ticket) : Bool :=
  t.assigned_to.isSome && t.assigned_to != some "human" && t.status != "done"

/-- The row update of the release loop: `assigned_to := NULL`,
`status := 'open'`, `updated_at := now`. -/
def releasedTicket (now : Nat) (u : Ticket) : Ticket :=
  { u with assigned_to := none, status := "open", updated_at := now }

/-- The synthetic activity row of the release loop, built from the
snapshot row `t`. -/
def releaseEvent (t : Ticket) : Activity :=
  ⟨some t.id, t.assigned_to, "unclaimed", some "Auto-released on swarm start"⟩

/-- One iteration of the release loop: log the synthetic `unclaimed` event
(with the snapshot's assignee) and clear the ticket. -/
def releaseStep (now : Nat) (d : DB) (t : Ticket) : DB :=
  let d1 : DB := { d with activity := d.activity ++ [releaseEvent t] }
  { d1 with tickets := updateTicket (releasedTicket now) t.id d1.tickets }

/-- `release_agent_tickets`: snapshot the orphaned tickets, release each of
them, and return the released count.  (The hook opens the database without
any schema-version check; an absent database file is out of scope here.) -/
def release_agent_tickets (now : Nat) (db : DB) : DB × Nat :=
  let orphaned := db.tickets.filter orphanPred
  if orphaned.isEmpty then (db, 0)
  else (orphaned.foldl (releaseStep now) db, orphaned.length)

/-- Bool test used to refute the claimed activity ordering: does the log
contain an `unclaimed` event immediately preceding a `blocker_added`
event? -/
def unclaimedImmediatelyBeforeBlockerAdded : List Activity → Bool
  | a :: b :: rest =>
    (a.action == "unclaimed" && b.action == "blocker_added") ||
    unclaimedImmediatelyBeforeBlockerAdded (b :: rest)
  | _ => false

/-! ### Concrete sample databases for witnesses and counterexamples -/

/-- Two open tickets, ticket 2 blocked by ticket 1; current schema. -/
def dbC1 : DB :=
  { tickets := [{ id := 1, title := "A", status := "open" },
                { id := 2, title := "B", status := "open" }],
    blockers := [(2, 1)], comments := [], activity := [], version := some 1 }

/-- Ticket 1 is claimed by agent-1; ticket 2 exists and is open. -/
def dbC2 : DB :=
  { tickets := [{ id := 1, title := "W", status := "in_progress",
                  assigned_to := some "agent-1" },
                { id := 2, title := "B", status := "open" }],
    blockers := [], comments := [], activity := [], version := some 1 }

/-- One in-progress ticket, for the HTTP complete endpoint. -/
def dbC3 : DB :=
  { tickets := [{ id := 1, title := "W", status := "in_progress",
                  assigned_to := some "agent-1" }],
    blockers := [], comments := [], activity := [], version := some 1 }

/-- A store with no schema-version row at all. -/
def dbC4 : DB :=
  { tickets := [], blockers := [], comments := [], activity := [],
    version := none }

/-- A done ticket next to an open one. -/
def dbC5 : DB :=
  { tickets := [{ id := 1, title := "D", status := "done" },
                { id := 2, title := "O", status := "open" }],
    blockers := [], comments := [], activity := [], version := some 1 }

/-- Recovery-hook sample: an agent-assigned in-progress ticket, a
human-assigned ticket, a done ticket still assigned to an agent, and an
unassigned one. -/
def dbC6 : DB :=
  { tickets := [{ id := 1, title := "A", status := "in_progress",
                  assigned_to := some "agent-1" },
                { id := 2, title := "H", status := "open",
                  assigned_to := some "human" },
                { id := 3, title := "D", status := "done",
                  assigned_to := some "agent-2" },
                { id := 4, title := "U", status := "open" }],
    blockers := [], comments := [], activity := [], version := some 1 }

/-- One open ticket; current schema. -/
def dbC7 : DB :=
  { tickets := [{ id := 1, title := "T", status := "open" }],
    blockers := [], comments := [], activity := [], version := some 1 }

/-- Two tickets with the single blocker edge (1, 2). -/
def dbC8 : DB :=
  { tickets := [{ id := 1, title := "X", status := "open" },
                { id := 2, title := "Y", status := "open" }],
    blockers := [(1, 2)], comments := [], activity := [], version := some 1 }

/-! ## Helper lemmas -/

theorem gate_ok {A : Type} (expected : Nat) (db : DB) (k : Except CmdError A)
    (hv : check_version db.version expected = .ok ()) :
    gate expected db k = k := by
  unfold gate
  rw [hv]

theorem gate_err {A : Type} (expected : Nat) (db : DB) (k : Except CmdError A)
    (e : VersionError) (hv : check_version db.version expected = .error e) :
    gate expected db k = .error (.version e) := by
  unfold gate
  rw [hv]

theorem find?_updateTicket (f : Ticket → Ticket) (hf : ∀ t, (f t).id = t.id)
    (i : Nat) (ts : List Ticket) :
    (updateTicket f i ts).find? (fun t => t.id == i) =
      (ts.find? (fun t => t.id == i)).map f := by
  induction ts with
  | nil => rfl
  | cons t ts ih =>
    by_cases h : t.id = i
    · have hpos : ((f t).id == i) = true := by rw [hf, h]; exact beq_self_eq_true i
      have hpos' : (t.id == i) = true := by rw [h]; exact beq_self_eq_true i
      simp only [updateTicket, List.map_cons, if_pos h, List.find?_cons, hpos, hpos']
      rfl
    · have hneg : (t.id == i) = false := by simpa using h
      simp only [updateTicket, List.map_cons, if_neg h, List.find?_cons, hneg]
      exact ih

theorem find?_updateTicket_ne (f : Ticket → Ticket)
    (hf : ∀ t, (f t).id = t.id) (i j : Nat) (hij : j ≠ i) (ts : List Ticket) :
    (updateTicket f i ts).find? (fun t => t.id == j) =
      ts.find? (fun t => t.id == j) := by
  induction ts with
  | nil => rfl
  | cons t ts ih =>
    by_cases h : t.id = i
    · have h1 : ((f t).id == j) = false := by
        rw [hf, h]
        simpa using fun he => hij he.symm
      have h2 : (t.id == j) = false := by
        rw [h]
        simpa using fun he => hij he.symm
      simp only [updateTicket, List.map_cons, if_pos h, List.find?_cons, h1, h2]
      exact ih
    · by_cases h3 : t.id = j
      · have h4 : (t.id == j) = true := by rw [h3]; exact beq_self_eq_true j
        simp only [updateTicket, List.map_cons, if_neg h, List.find?_cons, h4]
      · have h4 : (t.id == j) = false := by simpa using h3
        simp only [updateTicket, List.map_cons, if_neg h, List.find?_cons, h4]
        exact ih

theorem find?_map_id_preserving (g : Ticket → Ticket)
    (hg : ∀ t, (g t).id = t.id) (j : Nat) (ts : List Ticket) :
    (ts.map g).find? (fun t => t.id == j) =
      (ts.find? (fun t => t.id == j)).map g := by
  induction ts with
  | nil => rfl
  | cons t ts ih =>
    by_cases h : t.id = j
    · have h1 : ((g t).id == j) = true := by rw [hg, h]; exact beq_self_eq_true j
      have h2 : (t.id == j) = true := by rw [h]; exact beq_self_eq_true j
      simp only [List.map_cons, List.find?_cons, h1, h2]
      rfl
    · have h1 : ((g t).id == j) = false := by rw [hg]; simpa using h
      have h2 : (t.id == j) = false := by simpa using h
      simp only [List.map_cons, List.find?_cons, h1, h2]
      exact ih

theorem find?_of_mem_nodup (ts : List Ticket) (t : Ticket) (hm : t ∈ ts)
    (hnd : (ts.map Ticket.id).Nodup) :
    ts.find? (fun u => u.id == t.id) = some t := by
  induction ts with
  | nil => cases hm
  | cons u us ih =>
    rw [List.map_cons, List.nodup_cons] at hnd
    rcases List.mem_cons.mp hm with h | h
    · subst h
      simp only [List.find?_cons, beq_self_eq_true]
    · have hne : (u.id == t.id) = false := by
        simp only [beq_eq_false_iff_ne, ne_eq]
        intro he
        exact hnd.1 (he ▸ List.mem_map_of_mem Ticket.id h)
      simp only [List.find?_cons, hne]
      exact ih h hnd.2

theorem ticket_id_inj (ts : List Ticket) (hnd : (ts.map Ticket.id).Nodup)
    {a b : Ticket} (ha : a ∈ ts) (hb : b ∈ ts) (h : a.id = b.id) : a = b :=
  List.inj_on_of_nodup_map hnd ha hb h

theorem minById_mem {ts : List Ticket} :
    ∀ {u : Ticket}, minById ts = some u → u ∈ ts := by
  induction ts with
  | nil => intro u h; cases h
  | cons t ts ih =>
    intro u h
    rw [minById] at h
    split at h
    · injection h with h2
      subst h2
      exact List.mem_cons_self _ _
    · split at h
      · injection h with h2
        subst h2
        exact List.mem_cons_self _ _
      · injection h with h2
        rename_i v hm _
        subst h2
        exact List.mem_cons_of_mem t (ih hm)

theorem minById_ne_none {t : Ticket} {ts : List Ticket} :
    minById (t :: ts) ≠ none := by
  intro h
  rw [minById] at h
  split at h
  · cases h
  · split at h <;> cases h

theorem minById_le {ts : List Ticket} :
    ∀ {u : Ticket}, minById ts = some u → ∀ t ∈ ts, u.id ≤ t.id := by
  induction ts with
  | nil => intro u h; cases h
  | cons t ts ih =>
    intro u h s hs
    rw [minById] at h
    split at h
    · rename_i hm
      injection h with h2
      subst h2
      cases ts with
      | nil =>
        rcases List.mem_cons.mp hs with hh | hh
        · exact hh ▸ Nat.le_refl _
        · cases hh
      | cons a l => exact absurd hm minById_ne_none
    · rename_i v hm
      split at h
      · rename_i hle
        injection h with h2
        subst h2
        rcases List.mem_cons.mp hs with hh | hh
        · exact hh ▸ Nat.le_refl _
        · exact Nat.le_trans hle (ih hm s hh)
      · rename_i hle
        injection h with h2
        subst h2
        rcases List.mem_cons.mp hs with hh | hh
        · exact hh ▸ Nat.le_of_not_le hle
        · exact ih hm s hh

theorem minById_of_ne_nil {ts : List Ticket} (h : ts ≠ []) :
    ∃ u, minById ts = some u := by
  cases hm : minById ts with
  | none =>
    cases ts with
    | nil => exact absurd rfl h
    | cons t ts => exact absurd hm minById_ne_none
  | some v => exact ⟨v, rfl⟩

theorem releasedTicket_id (now : Nat) (u : Ticket) :
    (releasedTicket now u).id = u.id := rfl

theorem releasedTicket_idem (now : Nat) (u : Ticket) :
    releasedTicket now (releasedTicket now u) = releasedTicket now u := rfl

/-- Closed form of the release loop: every ticket whose id occurs in the
snapshot list is cleared, the rest are untouched, and one synthetic event
per snapshot row is appended in order. -/
theorem release_foldl (now : Nat) (l : List Ticket) (d : DB) :
    l.foldl (releaseStep now) d =
      { d with
        tickets := d.tickets.map (fun u =>
          if l.any (fun s => s.id == u.id) then releasedTicket now u else u),
        activity := d.activity ++ l.map releaseEvent } := by
  induction l generalizing d with
  | nil => simp
  | cons t0 rest ih =>
    rw [List.foldl_cons, ih]
    simp only [releaseStep, updateTicket]
    congr 1
    · rw [List.map_map]
      apply List.map_congr_left
      intro u _
      by_cases h : u.id = t0.id
      · have hb : (t0.id == u.id) = true := by rw [h]; exact beq_self_eq_true _
        simp only [Function.comp_apply, if_pos h, List.any_cons, hb,
          Bool.true_or, if_pos trivial]
        by_cases hr : rest.any (fun s => s.id == (releasedTicket now u).id) = true
        · rw [if_pos hr, releasedTicket_idem]
        · rw [if_neg hr]
      · have hb : (t0.id == u.id) = false := by
          simpa using fun he => h he.symm
        simp only [Function.comp_apply, if_neg h, List.any_cons, hb,
          Bool.false_or]
    · rw [List.append_assoc]
      rfl

theorem not_blocked_of_claimable {db : DB} {t : Ticket}
    (h : claimable db t = true) :
    ∀ p ∈ db.blockers, p.1 = t.id → ∀ u ∈ db.tickets, u.id = p.2 →
      u.status = "done" := by
  intro p hp hp1 u hu hu2
  have hb : isBlocked db t.id = false := by
    simp only [claimable, Bool.and_eq_true, Bool.not_eq_true'] at h
    exact h.2
  by_contra hne
  have htrue : isBlocked db t.id = true := by
    simp only [isBlocked, List.any_eq_true]
    refine ⟨p, hp, ?_⟩
    simp only [Bool.and_eq_true]
    refine ⟨beq_iff_eq.mpr hp1, ?_⟩
    simp only [List.any_eq_true]
    refine ⟨u, hu, ?_⟩
    simp only [Bool.and_eq_true]
    exact ⟨beq_iff_eq.mpr hu2, by simpa using hne⟩
  rw [hb] at htrue
  cases htrue

theorem status_open_of_claimable {db : DB} {t : Ticket}
    (h : claimable db t = true) : t.status = "open" := by
  simp only [claimable, Bool.and_eq_true, Bool.not_eq_true'] at h
  exact beq_iff_eq.mp h.1.1

theorem findTicket_update_self (f : Ticket → Ticket)
    (hf : ∀ t, (f t).id = t.id) (i : Nat) (d : DB) (row : Ticket)
    (h : findTicket d i = some row) (d' : DB)
    (hd : d'.tickets = updateTicket f i d.tickets) :
    findTicket d' i = some (f row) := by
  unfold findTicket at h ⊢
  rw [hd, find?_updateTicket f hf, h]
  rfl

/-! ## Claim theorems -/

/-- C7: `update(id, status=done)` on an existing ticket is rejected with a
Validation error; the command aborts before any field update or activity
insert, so the ticket and the log are unmodified. -/
theorem update_done_rejected (expected now i : Nat) (a : UpdateArgs)
    (db : DB) (row : Ticket)
    (hv : check_version db.version expected = .ok ())
    (hrow : findTicket db i = some row)
    (hstat : a.status = some "done") :
    cmd_update expected now i a db = .error .validation := by
  simp only [cmd_update]
  rw [gate_ok _ _ _ hv, hrow, hstat]
  rfl

/-- Witness for C7 at a concrete store: the rejection fires and nothing
else happens. -/
theorem update_done_rejected_witness :
    cmd_update 1 5 1 { status := some "done" } dbC7 = .error .validation :=
  update_done_rejected 1 5 1 { status := some "done" } dbC7
    { id := 1, title := "T", status := "open" } rfl rfl rfl

/-- C3 counterexample: on a concrete store, `POST /api/tickets/1/complete`
succeeds (200) and leaves the ticket with status `done`, not `ready` as
the claim states. -/
theorem api_complete_counterexample :
    (api_complete_ticket 5 1 dbC3).1 = 200 ∧
    (findTicket (api_complete_ticket 5 1 dbC3).2 1).map Ticket.status =
      some "done" ∧
    (findTicket (api_complete_ticket 5 1 dbC3).2 1).map Ticket.status ≠
      some "ready" := by
  refine ⟨rfl, rfl, ?_⟩
  decide

/-- C3 amended: `POST /api/tickets/{id}/complete`, for every existing
ticket id, returns 200 and transitions the ticket's status directly to
`done` (not `ready`; the CLI `complete` command is the one that sets
`ready`), logging a `completed` event. -/
theorem api_complete_spec (now ticket_id : Nat) (db : DB) (row : Ticket)
    (hrow : findTicket db ticket_id = some row) :
    ∃ db', api_complete_ticket now ticket_id db = (200, db') ∧
      findTicket db' ticket_id =
        some { row with status := "done", updated_at := now } ∧
      db'.activity = db.activity ++
        [⟨some ticket_id, row.assigned_to, "completed",
          some ("Ticket #" ++ toString ticket_id ++ " marked done")⟩] ∧
      db'.blockers = db.blockers ∧ db'.version = db.version := by
  have hg : findTicket (get_db db) ticket_id = findTicket db ticket_id := rfl
  have hrun : api_complete_ticket now ticket_id db =
      (200, log_activity
        { get_db db with tickets := (updateTicket (fun t =>
            { t with status := "done", updated_at := now }) ticket_id
            (get_db db).tickets) }
        (some ticket_id) row.assigned_to "completed"
        (some ("Ticket #" ++ toString ticket_id ++ " marked done"))) := by
    simp only [api_complete_ticket]
    rw [hg, hrow]
  refine ⟨_, hrun, ?_, rfl, rfl, rfl⟩
  show (updateTicket (fun t => { t with status := "done", updated_at := now })
    ticket_id (get_db db).tickets).find? (fun t => t.id == ticket_id) = _
  have hgt : (get_db db).tickets = db.tickets := rfl
  have hrow' : db.tickets.find? (fun t => t.id == ticket_id) = some row := hrow
  rw [hgt, find?_updateTicket (fun t =>
    { t with status := "done", updated_at := now }) (fun t => rfl)
    ticket_id db.tickets, hrow']
  rfl

/-- C2 counterexample: blocking the assigned ticket 1 by ticket 2 on a
concrete store succeeds and releases the ticket, but the activity log ends
`blocker_added` then `unclaimed` — nowhere does an `unclaimed` event
immediately precede a `blocker_added` event. -/
theorem block_order_counterexample :
    (findTicket dbC2 1).map Ticket.assigned_to = some (some "agent-1") ∧
    (cmd_block 1 5 1 2 dbC2).map (fun d => d.activity.map Activity.action) =
      .ok ["blocker_added", "unclaimed"] ∧
    (cmd_block 1 5 1 2 dbC2).map
      (fun d => unclaimedImmediatelyBeforeBlockerAdded d.activity) =
      .ok false :=
  ⟨rfl, rfl, rfl⟩

/-- C2 amended: `block(id, by)` on an assigned ticket clears `assigned_to`,
sets the status to `open`, and appends the synthetic `unclaimed` event
after (not before) the `blocker_added` event, in the same transaction:
the log tail is `blocker_added` immediately followed by `unclaimed`. -/
theorem block_auto_unclaim_spec (expected now i bid : Nat) (db : DB)
    (row brow : Ticket) (prev : String)
    (hv : check_version db.version expected = .ok ())
    (hrow : findTicket db i = some row)
    (hass : row.assigned_to = some prev)
    (hby : findTicket db bid = some brow)
    (hdup : (i, bid) ∉ db.blockers) :
    ∃ db', cmd_block expected now i bid db = .ok db' ∧
      findTicket db' i = some { row with assigned_to := none, status := "open", updated_at := now } ∧
      db'.blockers = db.blockers ++ [(i, bid)] ∧
      db'.activity = db.activity ++
        [⟨some i, none, "blocker_added",
          some ("Blocked by #" ++ toString bid)⟩,
         ⟨some i, some prev, "unclaimed",
          some ("Auto-released (blocked by #" ++ toString bid ++ ")")⟩] := by
  have h1 : (findTicket db i).isNone = false := by rw [hrow]; rfl
  have h2 : (findTicket db bid).isNone = false := by rw [hby]; rfl
  have h3 : db.blockers.contains (i, bid) = false := by simpa using hdup
  have h4 : findTicket (log_activity
      { db with blockers := db.blockers ++ [(i, bid)] }
      (some i) none "blocker_added"
      (some ("Blocked by #" ++ toString bid))) i = some row := hrow
  simp only [cmd_block]
  rw [gate_ok _ _ _ hv]
  simp only [h1, h2, h3, Bool.false_eq_true, if_false]
  simp only [h4, hass]
  refine ⟨_, rfl, ?_, rfl, ?_⟩
  · exact findTicket_update_self
      (fun t => { t with assigned_to := none, status := "open", updated_at := now })
      (fun t => rfl) i db row hrow _ rfl
  · show (db.activity ++ _) ++ _ = _
    rw [List.append_assoc]
    rfl

/-- Witness for the amended C2 at a concrete store. -/
theorem block_auto_unclaim_spec_witness :
    ∃ db', cmd_block 1 5 1 2 dbC2 = .ok db' ∧
      findTicket db' 1 = some { id := 1, title := "W", status := "open", assigned_to := none, updated_at := 5 } ∧
      db'.blockers = dbC2.blockers ++ [(1, 2)] ∧
      db'.activity = dbC2.activity ++
        [⟨some 1, none, "blocker_added", some ("Blocked by #" ++ toString 2)⟩,
         ⟨some 1, some "agent-1", "unclaimed",
          some ("Auto-released (blocked by #" ++ toString 2 ++ ")")⟩] :=
  block_auto_unclaim_spec 1 5 1 2 dbC2
    { id := 1, title := "W", status := "in_progress",
      assigned_to := some "agent-1" }
    { id := 2, title := "B", status := "open" } "agent-1"
    rfl rfl rfl rfl (by decide)

/-- Witness for the amended C3 at a concrete store. -/
theorem api_complete_spec_witness :
    ∃ db', api_complete_ticket 5 1 dbC3 = (200, db') ∧
      findTicket db' 1 =
        some { id := 1, title := "W", status := "done",
               assigned_to := some "agent-1", updated_at := 5 } ∧
      db'.activity = dbC3.activity ++
        [⟨some 1, some "agent-1", "completed",
          some ("Ticket #" ++ toString 1 ++ " marked done")⟩] ∧
      db'.blockers = dbC3.blockers ∧ db'.version = dbC3.version :=
  api_complete_spec 5 1 dbC3
    { id := 1, title := "W", status := "in_progress",
      assigned_to := some "agent-1" } rfl

/-- C5 counterexample: ticket 1 of the concrete store is `done`, yet
`unclaim 1` succeeds and moves its status to `open` — `done` is not
terminal under the coordinator operations. -/
theorem done_terminal_counterexample :
    (findTicket dbC5 1).map Ticket.status = some "done" ∧
    (cmd_unclaim 1 5 1 dbC5).map
      (fun d => (findTicket d 1).map Ticket.status) = .ok (some "open") :=
  ⟨rfl, rfl⟩

/-- C5 amended: `done` is terminal only for `claim_next` and `unblock`:
`claim_next` never selects or modifies a `done` ticket (it only touches
`open`, unassigned ones) and `unblock` alters no ticket row at all; but
`unclaim`, `complete`, `block`'s auto-release and the HTTP update endpoint
can move a `done` ticket to another status (`unclaim` sets it `open`). -/
theorem done_preserved_by_claim_next_and_unblock (expected now : Nat)
    (agent : String) (i bid : Nat) (db : DB) (t : Ticket)
    (hmem : t ∈ db.tickets) (hdone : t.status = "done")
    (hnd : (db.tickets.map Ticket.id).Nodup) :
    (∀ db' ret, cmd_claim_next expected now agent db = .ok (db', ret) →
      t ∈ db'.tickets ∧ ret.id ≠ t.id) ∧
    (∀ db', cmd_unblock expected i bid db = .ok db' →
      db'.tickets = db.tickets) := by
  constructor
  · intro db' ret h
    unfold cmd_claim_next gate at h
    split at h
    · cases h
    · split at h
      · cases h
      · rename_i row hm
        have hmemf := minById_mem hm
        have hrmem : row ∈ db.tickets := (List.mem_filter.mp hmemf).1
        have hcl : claimable db row = true := (List.mem_filter.mp hmemf).2
        have hopen : row.status = "open" := status_open_of_claimable hcl
        have hne : row.id ≠ t.id := by
          intro he
          have heq : row = t := ticket_id_inj db.tickets hnd hrmem hmem he
          rw [heq, hdone] at hopen
          exact absurd hopen (by decide)
        have hrow' : db.tickets.find? (fun u => u.id == row.id) = some row :=
          find?_of_mem_nodup db.tickets row hrmem hnd
        have hfind : findTicket (log_activity
            { db with tickets := (updateTicket (fun u =>
                { u with assigned_to := some agent, status := "in_progress",
                         updated_at := now }) row.id db.tickets) }
            (some row.id) (some agent) "claimed"
            (some ("Claimed by " ++ agent))) row.id =
            some { row with assigned_to := some agent, status := "in_progress", updated_at := now } :=
          findTicket_update_self
            (fun u => { u with assigned_to := some agent, status := "in_progress", updated_at := now })
            (fun u => rfl) row.id db row hrow' _ rfl
        simp only [hfind] at h
        injection h with h2
        rw [Prod.mk.injEq] at h2
        obtain ⟨hdb, hret⟩ := h2
        constructor
        · have hgt : (if t.id = row.id then ({ t with assigned_to := some agent, status := "in_progress", updated_at := now } : Ticket) else t) = t :=
            if_neg (fun he => hne he.symm)
          rw [← hdb]
          exact hgt ▸ List.mem_map_of_mem _ hmem
        · rw [← hret]
          exact fun he => hne he
  · intro db' h
    unfold cmd_unblock gate at h
    split at h
    · cases h
    · dsimp only at h
      split at h
      · cases h
      · injection h with h2
        rw [← h2]
        rfl

/-- Witness for the amended C5 at a concrete store: claiming work next to
a done ticket leaves the done ticket in place, and unblocking alters no
ticket. -/
theorem done_preserved_witness :
    (∀ db' ret, cmd_claim_next 1 5 "agent-1" dbC5 = .ok (db', ret) →
      ({ id := 1, title := "D", status := "done" } : Ticket) ∈ db'.tickets ∧
      ret.id ≠ ({ id := 1, title := "D", status := "done" } : Ticket).id) ∧
    (∀ db', cmd_unblock 1 1 2 dbC5 = .ok db' →
      db'.tickets = dbC5.tickets) :=
  done_preserved_by_claim_next_and_unblock 1 5 "agent-1" 1 2 dbC5
    { id := 1, title := "D", status := "done" }
    (by decide) rfl (by decide)

/-- C1: `claim_next(agent)` under a current schema: when no ticket is
claimable it reports "no work" without publishing any change; when the
eligible set is non-empty it is non-empty as a selection, and the selected
row is the least-id claimable ticket (open, unassigned, no edge to a
non-done ticket); that row is assigned to the agent, set `in_progress`,
a `claimed` event is logged, the refreshed row is returned, every other
ticket and all edges are untouched, and the returned ticket has no blocker
edge to a non-done ticket. -/
theorem claim_next_spec (expected now : Nat) (agent : String) (db : DB)
    (hv : check_version db.version expected = .ok ())
    (hnd : (db.tickets.map Ticket.id).Nodup) :
    ((∀ t ∈ db.tickets, claimable db t = false) →
      cmd_claim_next expected now agent db = .error .noWork) ∧
    ((∃ t ∈ db.tickets, claimable db t = true) →
      ∃ row, minById (db.tickets.filter (claimable db)) = some row) ∧
    (∀ row, minById (db.tickets.filter (claimable db)) = some row →
      ∃ db' ret, cmd_claim_next expected now agent db = .ok (db', ret) ∧
        row ∈ db.tickets ∧ claimable db row = true ∧
        (∀ t ∈ db.tickets, claimable db t = true → row.id ≤ t.id) ∧
        ret = { row with assigned_to := some agent, status := "in_progress", updated_at := now } ∧
        findTicket db' row.id = some ret ∧
        (∀ t ∈ db.tickets, t.id ≠ row.id → findTicket db' t.id = findTicket db t.id) ∧
        db'.activity = db.activity ++ [⟨some row.id, some agent, "claimed", some ("Claimed by " ++ agent)⟩] ∧
        db'.blockers = db.blockers ∧ db'.comments = db.comments ∧
        db'.version = db.version ∧
        (∀ p ∈ db.blockers, p.1 = row.id → ∀ u ∈ db.tickets,
          u.id = p.2 → u.status = "done")) := by
  refine ⟨?_, ?_, ?_⟩
  · intro h
    have hfil : db.tickets.filter (claimable db) = [] := by
      rw [List.filter_eq_nil_iff]
      intro a ha
      simp [h a ha]
    simp only [cmd_claim_next]
    rw [gate_ok _ _ _ hv, hfil]
    rfl
  · rintro ⟨t, ht, hct⟩
    exact minById_of_ne_nil (by
      intro hempty
      have := List.mem_filter.mpr ⟨ht, hct⟩
      rw [hempty] at this
      cases this)
  · intro row hm
    have hmemf := minById_mem hm
    have hmem : row ∈ db.tickets := (List.mem_filter.mp hmemf).1
    have hcl : claimable db row = true := (List.mem_filter.mp hmemf).2
    have hrow' : db.tickets.find? (fun u => u.id == row.id) = some row :=
      find?_of_mem_nodup db.tickets row hmem hnd
    have hfind : findTicket (log_activity
        { db with tickets := (updateTicket (fun u =>
            { u with assigned_to := some agent, status := "in_progress",
                     updated_at := now }) row.id db.tickets) }
        (some row.id) (some agent) "claimed"
        (some ("Claimed by " ++ agent))) row.id =
        some { row with assigned_to := some agent, status := "in_progress", updated_at := now } :=
      findTicket_update_self
        (fun u => { u with assigned_to := some agent, status := "in_progress", updated_at := now })
        (fun u => rfl) row.id db row hrow' _ rfl
    simp only [cmd_claim_next]
    rw [gate_ok _ _ _ hv, hm]
    simp only [hfind]
    refine ⟨_, _, rfl, hmem, hcl, ?_, rfl, hfind, ?_, rfl, rfl, rfl, rfl,
      not_blocked_of_claimable hcl⟩
    · intro t ht hct
      exact minById_le hm t (List.mem_filter.mpr ⟨ht, hct⟩)
    · intro t ht hne
      exact find?_updateTicket_ne
        (fun u => { u with assigned_to := some agent, status := "in_progress", updated_at := now })
        (fun u => rfl) row.id t.id hne db.tickets

/-- Witness for C1 at a concrete store: ticket 2 is blocked by the open
ticket 1, so `claim-next` hands out ticket 1. -/
theorem claim_next_spec_witness :
    ((∀ t ∈ dbC1.tickets, claimable dbC1 t = false) →
      cmd_claim_next 1 5 "agent-9" dbC1 = .error .noWork) ∧
    ((∃ t ∈ dbC1.tickets, claimable dbC1 t = true) →
      ∃ row, minById (dbC1.tickets.filter (claimable dbC1)) = some row) ∧
    (∀ row, minById (dbC1.tickets.filter (claimable dbC1)) = some row →
      ∃ db' ret, cmd_claim_next 1 5 "agent-9" dbC1 = .ok (db', ret) ∧
        row ∈ dbC1.tickets ∧ claimable dbC1 row = true ∧
        (∀ t ∈ dbC1.tickets, claimable dbC1 t = true → row.id ≤ t.id) ∧
        ret = { row with assigned_to := some "agent-9", status := "in_progress", updated_at := 5 } ∧
        findTicket db' row.id = some ret ∧
        (∀ t ∈ dbC1.tickets, t.id ≠ row.id → findTicket db' t.id = findTicket dbC1 t.id) ∧
        db'.activity = dbC1.activity ++ [⟨some row.id, some "agent-9", "claimed", some ("Claimed by " ++ "agent-9")⟩] ∧
        db'.blockers = dbC1.blockers ∧ db'.comments = dbC1.comments ∧
        db'.version = dbC1.version ∧
        (∀ p ∈ dbC1.blockers, p.1 = row.id → ∀ u ∈ dbC1.tickets,
          u.id = p.2 → u.status = "done")) :=
  claim_next_spec 1 5 "agent-9" dbC1 rfl (by decide)

/-- C4: every CLI subcommand except `migrate` opens the store through
`connect`, whose `check_version` aborts on any mismatch (no version row,
stored < expected, stored > expected) with the kind-distinguished error
before any state change: the dispatch returns an error (modelling the
non-zero exit with nothing committed), and — whenever the command's
pre-connection argument checks pass — that error is exactly the version
error of the mismatch kind. -/
theorem version_gate_spec (expected now : Nat) (c : Cmd) (db : DB)
    (e : VersionError) (hc : c ≠ Cmd.migrate)
    (hv : check_version db.version expected = .error e) :
    (∃ err, dispatch expected now c db = .error err) ∧
    (precheckOK c = true → dispatch expected now c db = .error (.version e)) := by
  cases c with
  | create a =>
    by_cases hb : (a.title.trim == "") = true
    · refine ⟨⟨.validation, ?_⟩, ?_⟩
      · simp [dispatch, cmd_create, hb, Except.map]
      · intro hp
        simp [precheckOK, hb] at hp
    · refine ⟨⟨.version e, ?_⟩, fun _ => ?_⟩ <;>
        simp [dispatch, cmd_create, hb, gate, hv, Except.map]
  | migrate => exact absurd rfl hc
  | update i a =>
    refine ⟨⟨.version e, ?_⟩, fun _ => ?_⟩ <;>
      simp [dispatch, cmd_update, gate, hv, Except.map]
  | list s a =>
    refine ⟨⟨.version e, ?_⟩, fun _ => ?_⟩ <;>
      simp [dispatch, cmd_list, gate, hv, Except.map]
  | show' i =>
    refine ⟨⟨.version e, ?_⟩, fun _ => ?_⟩ <;>
      simp [dispatch, cmd_show, gate, hv, Except.map]
  | count s =>
    refine ⟨⟨.version e, ?_⟩, fun _ => ?_⟩ <;>
      simp [dispatch, cmd_count, gate, hv, Except.map]
  | claimNext agent =>
    refine ⟨⟨.version e, ?_⟩, fun _ => ?_⟩ <;>
      simp [dispatch, cmd_claim_next, gate, hv, Except.map]
  | comment i author body =>
    refine ⟨⟨.version e, ?_⟩, fun _ => ?_⟩ <;>
      simp [dispatch, cmd_comment, gate, hv, Except.map]
  | comments i =>
    refine ⟨⟨.version e, ?_⟩, fun _ => ?_⟩ <;>
      simp [dispatch, cmd_comments, gate, hv, Except.map]
  | complete i =>
    refine ⟨⟨.version e, ?_⟩, fun _ => ?_⟩ <;>
      simp [dispatch, cmd_complete, gate, hv, Except.map]
  | markDone i =>
    refine ⟨⟨.version e, ?_⟩, fun _ => ?_⟩ <;>
      simp [dispatch, cmd_mark_done, gate, hv, Except.map]
  | unclaim i =>
    refine ⟨⟨.version e, ?_⟩, fun _ => ?_⟩ <;>
      simp [dispatch, cmd_unclaim, gate, hv, Except.map]
  | block i bid =>
    refine ⟨⟨.version e, ?_⟩, fun _ => ?_⟩ <;>
      simp [dispatch, cmd_block, gate, hv, Except.map]
  | unblock i bid =>
    refine ⟨⟨.version e, ?_⟩, fun _ => ?_⟩ <;>
      simp [dispatch, cmd_unblock, gate, hv, Except.map]
  | log limit =>
    refine ⟨⟨.version e, ?_⟩, fun _ => ?_⟩ <;>
      simp [dispatch, cmd_log, gate, hv, Except.map]

/-- Witness for C4: against a store with no version row, `unclaim` is
refused with the not-initialized kind. -/
theorem version_gate_spec_witness :
    (∃ err, dispatch 1 0 (Cmd.unclaim 1) dbC4 = .error err) ∧
    (precheckOK (Cmd.unclaim 1) = true →
      dispatch 1 0 (Cmd.unclaim 1) dbC4 = .error (.version .notInitialized)) :=
  version_gate_spec 1 0 (Cmd.unclaim 1) dbC4 .notInitialized
    (by intro h; cases h) rfl

theorem filter_pair_length {l : List (Nat × Nat)} {i b : Nat}
    (hnd : l.Nodup) (hm : (i, b) ∈ l) :
    (l.filter (fun e => !(e.1 == i && e.2 == b))).length + 1 = l.length := by
  induction l with
  | nil => cases hm
  | cons e rest ih =>
    rw [List.nodup_cons] at hnd
    by_cases he : e = (i, b)
    · subst he
      rw [List.filter_cons_of_neg (by simp)]
      have hrest : rest.filter (fun e => !(e.1 == i && e.2 == b)) = rest := by
        rw [List.filter_eq_self]
        intro x hx
        have hxne : x ≠ (i, b) := fun hxe => hnd.1 (hxe ▸ hx)
        by_cases h1 : x.1 = i
        · by_cases h2 : x.2 = b
          · exact absurd (Prod.ext h1 h2) hxne
          · simp [h2]
        · simp [h1]
      rw [hrest, List.length_cons]
    · have hmem : (i, b) ∈ rest := by
        rcases List.mem_cons.mp hm with h | h
        · exact absurd h.symm he
        · exact h
      have hcomp : (e.1 == i && e.2 == b) = false := by
        by_cases h1 : e.1 = i
        · by_cases h2 : e.2 = b
          · exact absurd (Prod.ext h1 h2) he
          · simp [h2]
        · simp [h1]
      rw [List.filter_cons_of_pos (by simp [hcomp]), List.length_cons,
        List.length_cons]
      have := ih hnd.2 hmem
      omega

/-- C8: `unblock(id, by)` deletes exactly the one edge `(id, by)` and
touches no ticket row (status and assignee survive); with no such edge it
fails with "no such blocker" and, the state being unchanged, a second
identical call after a successful one fails with NotFound. -/
theorem unblock_spec (expected i bid : Nat) (db : DB)
    (hv : check_version db.version expected = .ok ())
    (hnd : db.blockers.Nodup) :
    ((i, bid) ∉ db.blockers →
      cmd_unblock expected i bid db = .error .noSuchBlocker) ∧
    ((i, bid) ∈ db.blockers → ∃ db',
      cmd_unblock expected i bid db = .ok db' ∧
      db'.blockers = db.blockers.filter (fun e => !(e.1 == i && e.2 == bid)) ∧
      db'.blockers.length + 1 = db.blockers.length ∧
      db'.tickets = db.tickets ∧ db'.comments = db.comments ∧
      db'.version = db.version ∧
      db'.activity = db.activity ++ [⟨some i, none, "blocker_removed", some ("Unblocked from #" ++ toString bid)⟩] ∧
      cmd_unblock expected i bid db' = .error .noSuchBlocker) := by
  constructor
  · intro hnot
    have hself : db.blockers.filter (fun e => !(e.1 == i && e.2 == bid)) =
        db.blockers := by
      rw [List.filter_eq_self]
      intro x hx
      have hxne : x ≠ (i, bid) := fun hxe => hnot (hxe ▸ hx)
      by_cases h1 : x.1 = i
      · by_cases h2 : x.2 = bid
        · exact absurd (Prod.ext h1 h2) hxne
        · simp [h2]
      · simp [h1]
    simp only [cmd_unblock]
    rw [gate_ok _ _ _ hv]
    simp only [hself]
    simp
  · intro hmem
    have hlen := filter_pair_length hnd hmem
    have hcond : ((db.blockers.filter
        (fun e => !(e.1 == i && e.2 == bid))).length ==
        db.blockers.length) = false := by
      simp only [beq_eq_false_iff_ne, ne_eq]
      omega
    have hself2 : (db.blockers.filter
        (fun e => !(e.1 == i && e.2 == bid))).filter
        (fun e => !(e.1 == i && e.2 == bid)) =
        db.blockers.filter (fun e => !(e.1 == i && e.2 == bid)) := by
      rw [List.filter_eq_self]
      intro x hx
      exact (List.mem_filter.mp hx).2
    have hrun : cmd_unblock expected i bid db =
        .ok (log_activity { db with blockers := (db.blockers.filter
          (fun e => !(e.1 == i && e.2 == bid))) } (some i) none
          "blocker_removed" (some ("Unblocked from #" ++ toString bid))) := by
      simp only [cmd_unblock]
      rw [gate_ok _ _ _ hv]
      simp only [hcond, Bool.false_eq_true, if_false]
    refine ⟨_, hrun, rfl, hlen, rfl, rfl, rfl, rfl, ?_⟩
    have hv' : check_version (log_activity { db with blockers :=
        (db.blockers.filter (fun e => !(e.1 == i && e.2 == bid))) }
        (some i) none "blocker_removed"
        (some ("Unblocked from #" ++ toString bid))).version expected =
        .ok () := hv
    simp only [cmd_unblock]
    rw [gate_ok _ _ _ hv']
    simp [log_activity, hself2]

/-- Witness for C8 at a concrete store holding exactly the edge (1, 2). -/
theorem unblock_spec_witness :
    ((1, 2) ∉ dbC8.blockers →
      cmd_unblock 1 1 2 dbC8 = .error .noSuchBlocker) ∧
    ((1, 2) ∈ dbC8.blockers → ∃ db',
      cmd_unblock 1 1 2 dbC8 = .ok db' ∧
      db'.blockers = dbC8.blockers.filter (fun e => !(e.1 == 1 && e.2 == 2)) ∧
      db'.blockers.length + 1 = dbC8.blockers.length ∧
      db'.tickets = dbC8.tickets ∧ db'.comments = dbC8.comments ∧
      db'.version = dbC8.version ∧
      db'.activity = dbC8.activity ++ [⟨some 1, none, "blocker_removed", some ("Unblocked from #" ++ toString 2)⟩] ∧
      cmd_unblock 1 1 2 db' = .error .noSuchBlocker) :=
  unblock_spec 1 1 2 dbC8 rfl (by decide)

theorem release_map_id (now : Nat) (l : List Ticket) (u : Ticket) :
    ((if l.any (fun s => s.id == u.id) then releasedTicket now u else u) :
      Ticket).id = u.id := by
  split <;> rfl

/-- C6: the recovery hook selects exactly the tickets with an assignee
other than `human` and a status other than `done`; each selected ticket
gets a synthetic `unclaimed` event with detail "Auto-released on swarm
start" and is reset to unassigned `open`; every non-selected ticket —
human-assigned and `done` ones included — is returned bit-for-bit
unchanged, and no other table is touched. -/
theorem release_agent_tickets_spec (now : Nat) (db : DB)
    (hnd : (db.tickets.map Ticket.id).Nodup) :
    (release_agent_tickets now db).2 = (db.tickets.filter orphanPred).length ∧
    (release_agent_tickets now db).1.activity =
      db.activity ++ (db.tickets.filter orphanPred).map releaseEvent ∧
    (release_agent_tickets now db).1.blockers = db.blockers ∧
    (release_agent_tickets now db).1.comments = db.comments ∧
    (release_agent_tickets now db).1.version = db.version ∧
    (∀ t ∈ db.tickets, orphanPred t = true →
      findTicket (release_agent_tickets now db).1 t.id =
        some (releasedTicket now t)) ∧
    (∀ t ∈ db.tickets, orphanPred t = false →
      findTicket (release_agent_tickets now db).1 t.id = some t) := by
  by_cases hemp : (db.tickets.filter orphanPred).isEmpty = true
  · have hnil : db.tickets.filter orphanPred = [] := by
      rwa [List.isEmpty_iff] at hemp
    have hres : release_agent_tickets now db = (db, 0) := by
      simp [release_agent_tickets, hemp]
    rw [hres]
    refine ⟨by rw [hnil]; rfl, by rw [hnil]; simp, rfl, rfl, rfl, ?_, ?_⟩
    · intro t ht hpred
      have hmemf : t ∈ db.tickets.filter orphanPred :=
        List.mem_filter.mpr ⟨ht, hpred⟩
      rw [hnil] at hmemf
      cases hmemf
    · intro t ht hpred
      exact find?_of_mem_nodup db.tickets t ht hnd
  · have hemp' : (db.tickets.filter orphanPred).isEmpty = false := by
      simpa using hemp
    have hres : release_agent_tickets now db =
        ((db.tickets.filter orphanPred).foldl (releaseStep now) db,
         (db.tickets.filter orphanPred).length) := by
      simp [release_agent_tickets, hemp']
    rw [hres, release_foldl]
    refine ⟨rfl, rfl, rfl, rfl, rfl, ?_, ?_⟩
    · intro t ht hpred
      have hany : ((db.tickets.filter orphanPred).any
          (fun s => s.id == t.id)) = true :=
        List.any_eq_true.mpr
          ⟨t, List.mem_filter.mpr ⟨ht, hpred⟩, beq_self_eq_true _⟩
      have hfind0 : db.tickets.find? (fun u => u.id == t.id) = some t :=
        find?_of_mem_nodup db.tickets t ht hnd
      show (db.tickets.map (fun u => if (db.tickets.filter orphanPred).any (fun s => s.id == u.id) then releasedTicket now u else u)).find? (fun u => u.id == t.id) = _
      rw [find?_map_id_preserving (fun u =>
        if (db.tickets.filter orphanPred).any (fun s => s.id == u.id) then
          releasedTicket now u else u)
        (release_map_id now (db.tickets.filter orphanPred)) t.id db.tickets,
        hfind0]
      rw [Option.map_some', if_pos hany]
    · intro t ht hpred
      have hany : ((db.tickets.filter orphanPred).any
          (fun s => s.id == t.id)) = false := by
        rw [← Bool.not_eq_true]
        intro hx
        obtain ⟨s, hsf, hsid⟩ := List.any_eq_true.mp hx
        have hs := List.mem_filter.mp hsf
        have hst : s = t :=
          ticket_id_inj db.tickets hnd hs.1 ht (beq_iff_eq.mp hsid)
        rw [hst] at hs
        rw [hs.2] at hpred
        cases hpred
      have hfind0 : db.tickets.find? (fun u => u.id == t.id) = some t :=
        find?_of_mem_nodup db.tickets t ht hnd
      show (db.tickets.map (fun u => if (db.tickets.filter orphanPred).any (fun s => s.id == u.id) then releasedTicket now u else u)).find? (fun u => u.id == t.id) = _
      rw [find?_map_id_preserving (fun u =>
        if (db.tickets.filter orphanPred).any (fun s => s.id == u.id) then
          releasedTicket now u else u)
        (release_map_id now (db.tickets.filter orphanPred)) t.id db.tickets,
        hfind0]
      rw [Option.map_some', if_neg (by simp [hany])]

/-- Witness for C6 at a concrete store: one agent-assigned in-progress
ticket is released; the human-assigned, done and unassigned tickets are
untouched. -/
theorem release_agent_tickets_spec_witness :
    (release_agent_tickets 7 dbC6).2 =
      (dbC6.tickets.filter orphanPred).length ∧
    (release_agent_tickets 7 dbC6).1.activity =
      dbC6.activity ++ (dbC6.tickets.filter orphanPred).map releaseEvent ∧
    (release_agent_tickets 7 dbC6).1.blockers = dbC6.blockers ∧
    (release_agent_tickets 7 dbC6).1.comments = dbC6.comments ∧
    (release_agent_tickets 7 dbC6).1.version = dbC6.version ∧
    (∀ t ∈ dbC6.tickets, orphanPred t = true →
      findTicket (release_agent_tickets 7 dbC6).1 t.id =
        some (releasedTicket 7 t)) ∧
    (∀ t ∈ dbC6.tickets, orphanPred t = false →
      findTicket (release_agent_tickets 7 dbC6).1 t.id = some t) :=
  release_agent_tickets_spec 7 dbC6 (by decide)

/-- C9: running the recovery hook twice in a row changes nothing: the
second run selects no tickets, appends no events, modifies no row, and
reports zero released.  (Hypothesis-free: holds for every store.) -/
theorem release_idempotent (now now2 : Nat) (db : DB) :
    release_agent_tickets now2 (release_agent_tickets now db).1 =
      ((release_agent_tickets now db).1, 0) := by
  by_cases hemp : (db.tickets.filter orphanPred).isEmpty = true
  · have h1 : (release_agent_tickets now db).1 = db := by
      simp [release_agent_tickets, hemp]
    rw [h1]
    simp [release_agent_tickets, hemp]
  · have hemp' : (db.tickets.filter orphanPred).isEmpty = false := by
      simpa using hemp
    have h1 : (release_agent_tickets now db).1 =
        (db.tickets.filter orphanPred).foldl (releaseStep now) db := by
      simp [release_agent_tickets, hemp']
    rw [h1, release_foldl]
    have hfil : ((db.tickets.map (fun u =>
        if (db.tickets.filter orphanPred).any (fun s => s.id == u.id) then
          releasedTicket now u else u)).filter orphanPred) = [] := by
      rw [List.filter_eq_nil_iff]
      intro u hu
      obtain ⟨v, hv, rfl⟩ := List.mem_map.mp hu
      by_cases hany : ((db.tickets.filter orphanPred).any
          (fun s => s.id == v.id)) = true
      · rw [if_pos hany]
        simp [orphanPred, releasedTicket]
      · rw [if_neg (by simpa using hany)]
        intro hpred
        exact hany (List.any_eq_true.mpr
          ⟨v, List.mem_filter.mpr ⟨hv, hpred⟩, beq_self_eq_true _⟩)
    simp only [release_agent_tickets]
    rw [hfil]
    simp

/-- C10: the Supervisor HTTP handlers are not version-gated: each
per-request `get_db` unconditionally applies the embedded
`CREATE TABLE IF NOT EXISTS` schema (marking the store initialized) and
reads no `schema_version`; the handlers' status codes and effects are
identical for every stored version — `none` included — so no HTTP
operation can fail with a schema-mismatch error. -/
theorem server_ignores_version (now ticket_id : Nat) (cb : ApiCreateBody)
    (ub : ApiUpdateBody) (db : DB) (v : Option Nat) :
    ((api_complete_ticket now ticket_id db).1 = 200 ∨
      (api_complete_ticket now ticket_id db).1 = 404) ∧
    (api_complete_ticket now ticket_id db).2.initialized = true ∧
    api_complete_ticket now ticket_id { db with version := v } =
      ((api_complete_ticket now ticket_id db).1,
       { (api_complete_ticket now ticket_id db).2 with version := v }) ∧
    ((api_update_ticket now ticket_id ub db).1 = 200 ∨
      (api_update_ticket now ticket_id ub db).1 = 404 ∨
      (api_update_ticket now ticket_id ub db).1 = 400) ∧
    (api_update_ticket now ticket_id ub db).2.initialized = true ∧
    api_update_ticket now ticket_id ub { db with version := v } =
      ((api_update_ticket now ticket_id ub db).1,
       { (api_update_ticket now ticket_id ub db).2 with version := v }) ∧
    api_create_ticket now cb { db with version := v } =
      ((api_create_ticket now cb db).1,
       { (api_create_ticket now cb db).2 with version := v }) := by
  have h1 : findTicket (get_db db) ticket_id = findTicket db ticket_id := rfl
  have h2 : findTicket (get_db { db with version := v }) ticket_id =
      findTicket db ticket_id := rfl
  refine ⟨?_, ?_, ?_, ?_, ?_, ?_, ?_⟩
  · cases hf : findTicket db ticket_id with
    | none =>
      right
      simp only [api_complete_ticket]
      rw [h1]
      simp only [hf]
    | some t =>
      left
      simp only [api_complete_ticket]
      rw [h1]
      simp only [hf]
  · cases hf : findTicket db ticket_id with
    | none =>
      simp only [api_complete_ticket]
      rw [h1]
      simp only [hf]
      rfl
    | some t =>
      simp only [api_complete_ticket]
      rw [h1]
      simp only [hf]
      rfl
  · cases hf : findTicket db ticket_id with
    | none =>
      simp only [api_complete_ticket]
      rw [h1, h2]
      simp only [hf]
      rfl
    | some t =>
      simp only [api_complete_ticket]
      rw [h1, h2]
      simp only [hf]
      rfl
  · cases hf : findTicket db ticket_id with
    | none =>
      right; left
      simp only [api_update_ticket]
      rw [h1]
      simp only [hf]
    | some t =>
      by_cases hch : (api_update_changes ub).isEmpty = true
      · right; right
        simp only [api_update_ticket]
        rw [h1]
        simp only [hf, hch, if_true]
      · left
        simp only [api_update_ticket]
        rw [h1]
        simp only [hf]
        rw [if_neg hch]
  · cases hf : findTicket db ticket_id with
    | none =>
      simp only [api_update_ticket]
      rw [h1]
      simp only [hf]
      rfl
    | some t =>
      by_cases hch : (api_update_changes ub).isEmpty = true
      · simp only [api_update_ticket]
        rw [h1]
        simp only [hf, hch, if_true]
        rfl
      · simp only [api_update_ticket]
        rw [h1]
        simp only [hf]
        rw [if_neg hch]
        rfl
  · cases hf : findTicket db ticket_id with
    | none =>
      simp only [api_update_ticket]
      rw [h1, h2]
      simp only [hf]
      rfl
    | some t =>
      by_cases hch : (api_update_changes ub).isEmpty = true
      · simp only [api_update_ticket]
        rw [h1, h2]
        simp only [hf, hch, if_true]
        rfl
      · simp only [api_update_ticket]
        rw [h1, h2]
        simp only [hf]
        rw [if_neg hch, if_neg hch]
        rfl
  · cases hti : cb.title with
    | none =>
      simp only [api_create_ticket]
      simp only [hti]
    | some title =>
      by_cases he : (title == "") = true
      · simp only [api_create_ticket]
        simp only [hti, he, if_true]
      · simp only [api_create_ticket]
        simp only [hti]
        rw [if_neg he, if_neg he]
        rfl

end Swarm
